import Mathlib

/-!
Shallow embedding of the real-time media pipeline of `LiveInterface.tsx`
(mixer_fixer repository): the session state machine, the playback
scheduler, the instruction channel with 8-second auto-expiry, the frame
sampler, the tool-call handler and the instruction overlay renderer.

Conventions:
- JavaScript values that may be `undefined` at runtime (tool-call
  argument fields escape the TypeScript types through `call.args as any`)
  are modelled as `Option`.
- Time (the output audio clock and the wall clock driving timers) is `ℚ`
  in seconds or milliseconds as noted per definition.
- A live `setTimeout`/`setInterval` timer is modelled by the deadline it
  would fire at (`Option ℚ`, `none` = no live timer / cleared), since the
  only observable of a timer id kept in a ref is whether `clearTimeout`
  on it still cancels a pending callback.
- Payloads are processed atomically in decode-completion order, matching
  the single-threaded event loop.
-/

/-- `ConnectionStatus` from `types.ts`. -/
inductive ConnectionStatus where
  | DISCONNECTED
  | CONNECTING
  | CONNECTED
  | ERROR
deriving DecidableEq

/-- `InstructionState` from `types.ts`: `{action: string, message: string}`.
The fields are `Option String` because the runtime values come out of
`call.args as any` in `LiveInterface.tsx` and may be `undefined` even
though the TypeScript annotation says `string`. -/
structure InstructionState where
  action : Option String
  message : Option String
deriving DecidableEq

/-- The mutable state of one `LiveInterface` component instance: the React
state hooks (`status`, `errorMessage`, `isAiSpeaking`, `currentInstruction`)
and the refs (`instructionTimeoutRef` as its pending deadline,
`nextStartTimeRef`, `sourcesRef` as the set of active source ids,
`streamRef`'s tracks as a liveness flag, `frameIntervalRef` as an armed
flag, the two audio contexts as open flags, `sessionRef` as a presence
flag). -/
structure SessionState where
  status : ConnectionStatus
  errorMessage : String
  isAiSpeaking : Bool
  currentInstruction : Option InstructionState
  /-- Deadline (ms) of the pending instruction auto-hide timeout;
  `none` when no timeout is live. -/
  instructionDeadline : Option ℚ
  /-- `nextStartTimeRef.current` (seconds on the output audio clock). -/
  nextStartTime : ℚ
  /-- Ids of the active `AudioBufferSourceNode`s in `sourcesRef.current`. -/
  sources : Finset ℕ
  /-- Whether the media stream's device tracks are still live. -/
  tracksLive : Bool
  /-- Whether the frame-sampling interval is armed. -/
  frameIntervalArmed : Bool
  /-- Whether the output `AudioContext` is open. -/
  audioContextOpen : Bool
  /-- Whether the input `AudioContext` is open. -/
  inputContextOpen : Bool
  /-- Whether `sessionRef.current` holds a session handle. -/
  sessionHeld : Bool
deriving DecidableEq

/-- `stopSession` (`LiveInterface.tsx` lines 75-104): stops every device
track, clears the frame interval and the instruction timeout, closes both
audio contexts, nulls the session ref, stops every active source and
clears the set, and sets the status to `DISCONNECTED`. It does not touch
`currentInstruction`, `errorMessage`, `isAiSpeaking` or
`nextStartTimeRef`. -/
def stopSession (s : SessionState) : SessionState :=
  { s with
    tracksLive := false
    frameIntervalArmed := false
    instructionDeadline := none
    audioContextOpen := false
    inputContextOpen := false
    sessionHeld := false
    sources := ∅
    status := ConnectionStatus.DISCONNECTED }

/-- All session-owned resources are released in state `s`. -/
def resourcesReleased (s : SessionState) : Prop :=
  s.tracksLive = false ∧ s.frameIntervalArmed = false ∧
  s.instructionDeadline = none ∧ s.audioContextOpen = false ∧
  s.inputContextOpen = false ∧ s.sessionHeld = false ∧ s.sources = ∅

/-- `handleInstruction` (`LiveInterface.tsx` lines 106-118) at wall-clock
time `t` (ms): sets the current instruction, clears any previous
auto-hide timeout and arms a fresh one firing 8000 ms later. -/
def handleInstruction (i : InstructionState) (t : ℚ) (s : SessionState) :
    SessionState :=
  { s with
    currentInstruction := some i
    instructionDeadline := some (t + 8000) }

/-- The instruction auto-hide timeout firing at wall-clock time `t`: the
callback `setCurrentInstruction(null)` runs only if a timeout with that
deadline is still live (not cancelled by `clearTimeout`). -/
def fireInstructionTimeout (t : ℚ) (s : SessionState) : SessionState :=
  if s.instructionDeadline = some t then
    { s with currentInstruction := none, instructionDeadline := none }
  else s

/-- The audio-payload branch of `onmessage` (`LiveInterface.tsx` lines
241-269), processed atomically at decode-completion: given the output
clock `t` at scheduling time, decoded duration `d` and a fresh source id:
set the speaking flag, clamp `nextStartTime` to `max(nextStartTime, t)`,
start the source at the clamped offset, add it to the active set, and
advance `nextStartTime` by the duration. Returns the new state and the
offset the segment was scheduled to start at. -/
def onAudioPayload (t d : ℚ) (srcId : ℕ) (s : SessionState) :
    SessionState × ℚ :=
  let start := max s.nextStartTime t
  ({ s with
      isAiSpeaking := true
      nextStartTime := start + d
      sources := insert srcId s.sources }, start)

/-- The scheduled start offsets produced by feeding the payloads
`(tᵢ, dᵢ)` (output clock at scheduling time, duration) one after another
through the audio-payload branch, starting from state `s`. -/
def scheduleStarts (s : SessionState) : List (ℚ × ℚ) → List ℚ
  | [] => []
  | (t, d) :: rest =>
      let r := onAudioPayload t d 0 s
      r.2 :: scheduleStarts r.1 rest

/-- The `interrupted` branch of `onmessage` (`LiveInterface.tsx` lines
272-280): calls `stop()` on every active source, clears the active set,
resets `nextStartTimeRef` to 0 and the speaking flag to false. The
commented-out `setCurrentInstruction(null)` is not executed. Returns the
new state and the set of source ids that `stop()` was called on. -/
def onInterrupted (s : SessionState) : SessionState × Finset ℕ :=
  ({ s with
      nextStartTime := 0
      sources := ∅
      isAiSpeaking := false }, s.sources)

/-- The `onclose` callback (`LiveInterface.tsx` lines 282-285): tears the
session down through `stopSession`. -/
def onclose (s : SessionState) : SessionState := stopSession s

/-- The `onerror` callback (`LiveInterface.tsx` lines 286-290): sets the
error message and the `ERROR` status, and nothing else — in particular it
does not call `stopSession`. -/
def onerror (s : SessionState) : SessionState :=
  { s with
    errorMessage := "حدث خطأ في الاتصال. حاول مرة أخرى."
    status := ConnectionStatus.ERROR }

/-- The `catch` branch of `connectToGemini` (`LiveInterface.tsx` lines
294-302): sets a message keyed on whether the failure was the missing
API key or device access, and the `ERROR` status; it does not call
`stopSession`. -/
def connectFailure (missingApiKey : Bool) (s : SessionState) :
    SessionState :=
  { s with
    errorMessage :=
      if missingApiKey then
        "مفتاح API غير موجود. يرجى إضافة VITE_API_KEY في إعدادات Netlify."
      else "تعذر الوصول إلى الكاميرا أو الميكروفون."
    status := ConnectionStatus.ERROR }

/-- One entry of `message.toolCall.functionCalls`. All fields may be
absent at runtime (`Option`); the code reads them untyped through
`as any`. -/
structure FunctionCall where
  id : Option String
  name : Option String
  action : Option String
  message : Option String
  /-- Whether `call.args` itself is present; when it is absent, the
  member reads `args.action` / `args.message` throw a `TypeError`. -/
  argsPresent : Bool
deriving DecidableEq

/-- One entry of the `functionResponses` array sent through
`session.sendToolResponse`. -/
structure ToolResponse where
  id : Option String
  name : Option String
  result : String
deriving DecidableEq

/-- The `toolCall` branch of `onmessage` (`LiveInterface.tsx` lines
213-237) at wall-clock time `t`: if the `functionCalls` array is
non-empty, take only its first element; if that call is named
`displayInstruction`, read `args.action` and `args.message` with no
presence check, pass them to `handleInstruction`, and send one tool
response correlated by the call's id. Reading a member of an absent
`args` throws (`Except.error`), aborting the handler. Any call after the
first is ignored. -/
def onToolCall (calls : List FunctionCall) (t : ℚ) (s : SessionState) :
    Except String (SessionState × List ToolResponse) :=
  match calls with
  | [] => Except.ok (s, [])
  | call :: _ =>
      if call.name = some "displayInstruction" then
        if call.argsPresent then
          Except.ok
            (handleInstruction ⟨call.action, call.message⟩ t s,
             [⟨call.id, call.name, "Instruction displayed to user"⟩])
        else
          Except.error "TypeError: cannot read properties of undefined"
      else Except.ok (s, [])

/-- `as.isPrefixOfList bs`: the character list `as` is a prefix of `bs`. -/
def isPrefixOfList : List Char → List Char → Bool
  | [], _ => true
  | _ :: _, [] => false
  | a :: as, b :: bs => a == b && isPrefixOfList as bs

/-- `pat` occurs as a contiguous run inside `l` (the semantics of
JavaScript `String.prototype.includes`). -/
def occursIn (pat : List Char) : List Char → Bool
  | [] => isPrefixOfList pat []
  | c :: rest => isPrefixOfList pat (c :: rest) || occursIn pat rest

/-- JavaScript `str.includes(pat)` on a defined string. -/
def strIncludes (str pat : String) : Bool :=
  occursIn pat.toList str.toList

/-- JavaScript `v.includes(pat)` where `v` may be `undefined`: a member
call on `undefined` throws a `TypeError`. -/
def jsIncludes (v : Option String) (pat : String) : Except String Bool :=
  match v with
  | none =>
      Except.error "TypeError: cannot read properties of undefined"
  | some str => Except.ok (strIncludes str pat)

/-- The icons `InstructionOverlay.getIcon` can return. -/
inductive IconKind where
  | trendingDown
  | trendingUp
  | bolt
  | speakerX
  | adjustments
  | checkCircle
  | speakerWave
deriving DecidableEq

/-- `getIcon` from `InstructionOverlay`: a `switch` on the action string;
`undefined` (like any unlisted value) falls through to the default. -/
def getIcon (action : Option String) : IconKind :=
  match action with
  | some "reduce_echo" => IconKind.trendingDown
  | some "reduce_treble" => IconKind.trendingDown
  | some "reduce_gain" => IconKind.trendingDown
  | some "increase_echo" => IconKind.trendingUp
  | some "increase_volume" => IconKind.trendingUp
  | some "fix_buzz" => IconKind.bolt
  | some "mute" => IconKind.speakerX
  | some "check_cables" => IconKind.adjustments
  | some "success" => IconKind.checkCircle
  | _ => IconKind.speakerWave

/-- The knob hints `InstructionOverlay.getVisualHint` can render. -/
inductive HintKind where
  | knobLeft
  | knobRight
deriving DecidableEq

/-- `getVisualHint` from `InstructionOverlay`: calls
`action.includes('reduce')` and `action.includes('increase')`, which
throw when `action` is `undefined`. -/
def getVisualHint (action : Option String) :
    Except String (Option HintKind) := do
  if ← jsIncludes action "reduce" then
    return some HintKind.knobLeft
  if ← jsIncludes action "increase" then
    return some HintKind.knobRight
  return none

/-- What one render of `InstructionOverlay` produces when it succeeds. -/
structure OverlayRender where
  fixGlow : Bool
  icon : IconKind
  hint : Option HintKind
deriving DecidableEq

/-- Rendering `InstructionOverlay` (`src/unnamed/part_001`): with no
instruction it renders nothing; with an instruction it evaluates
`instruction.action.includes('fix')` for the background glow, `getIcon`,
and `getVisualHint`, each of which can throw on an `undefined` action —
a throw during render crashes the UI layer. -/
def renderOverlay (inst : Option InstructionState) :
    Except String (Option OverlayRender) :=
  match inst with
  | none => Except.ok none
  | some i => do
      let glow ← jsIncludes i.action "fix"
      let hint ← getVisualHint i.action
      return some ⟨glow, getIcon i.action, hint⟩

/-- The frame-sampling period in milliseconds: `1000 / FPS` with
`FPS = 1.5` (`startVideoStreaming`, `LiveInterface.tsx` lines 305-334). -/
def framePeriodMs : ℚ := 1000 / (3 / 2)

/-- The wall-clock time of the `n`-th tick of the frame-sampling
`setInterval`: ticks fire at a fixed period, independent of how long any
frame compression takes, because the callback never awaits `toBlob`. -/
def frameTickTime (n : ℕ) : ℚ := n * framePeriodMs

/-- How many frame compressions (`canvas.toBlob` calls) one tick of the
frame-sampling interval starts: the callback returns immediately if the
canvas or video ref is absent or the 2d context is unavailable (the tick
is skipped, nothing is queued), and otherwise starts exactly one
compression, fire-and-forget. -/
def frameTickCompressions (canvasReady videoReady ctxReady : Bool) : ℕ :=
  if !canvasReady || !videoReady then 0
  else if !ctxReady then 0
  else 1

/-- `setInterval` scheduling: the delay until the next tick is the fixed
period whatever the number of still-pending compressions, because the
tick callback never awaits a compression's completion. -/
def nextTickDelay (_pendingCompressions : ℕ) : ℚ :=
  framePeriodMs

/-- JavaScript number-to-`Int16Array` element conversion truncates the
fractional part toward zero. -/
def jsTrunc (q : ℚ) : ℤ :=
  if 0 ≤ q then ⌊q⌋ else ⌈q⌉

/-- Modelled from the spec: `createPcmBlob` lives in
`utils/audioUtils.ts`, which is not among the provided sources (only its
call sites in `LiveInterface.tsx` are). Per spec §4.2 each
floating-point sample is clamped to `[-1, 1]` and then scaled by 32767.
This is the per-sample law; samples are `ℚ`. -/
def encodeSample (s : ℚ) : ℤ :=
  jsTrunc (max (-1) (min 1 s) * 32767)

/-- An outbound PCM chunk: the converted samples plus the media-type tag
`audio/pcm;rate=16000` (§6 of the spec). -/
structure PcmBlob where
  data : List ℤ
  mimeType : String
deriving DecidableEq

/-- Modelled from the spec: `createPcmBlob` converts one block of
floating-point samples into a 16-bit PCM chunk tagged as PCM audio at
16 kHz, one chunk per block. -/
def createPcmBlob (samples : List ℚ) : PcmBlob :=
  ⟨samples.map encodeSample, "audio/pcm;rate=16000"⟩

/-- A session state mid-call: connected, devices live, frame interval
armed, both audio contexts open, session handle held, no instruction. -/
def sampleState : SessionState :=
  ⟨ConnectionStatus.CONNECTED, "", false, none, none, 0, ∅,
   true, true, true, true, true⟩

/-- C2: processing an interruption signal stops exactly the active
segments, empties the active set, resets `next_playback_offset` to 0 and
clears the agent-speaking flag, for every prior state. -/
theorem interruption_flushes_playback (s : SessionState) :
    (onInterrupted s).2 = s.sources ∧
    (onInterrupted s).1.sources = ∅ ∧
    (onInterrupted s).1.nextStartTime = 0 ∧
    (onInterrupted s).1.isAiSpeaking = false :=
  ⟨rfl, rfl, rfl, rfl⟩

/-- C3: `stopSession` is idempotent — a second call produces the same
final state — and each call stops the device tracks, clears the
frame-sampling interval and the instruction expiry timeout, closes both
audio contexts, discards the session handle, releases every active
playback segment and transitions to `DISCONNECTED`. -/
theorem stopSession_idempotent (s : SessionState) :
    stopSession (stopSession s) = stopSession s ∧
    (stopSession s).tracksLive = false ∧
    (stopSession s).frameIntervalArmed = false ∧
    (stopSession s).instructionDeadline = none ∧
    (stopSession s).audioContextOpen = false ∧
    (stopSession s).inputContextOpen = false ∧
    (stopSession s).sessionHeld = false ∧
    (stopSession s).sources = ∅ ∧
    (stopSession s).status = ConnectionStatus.DISCONNECTED :=
  ⟨rfl, rfl, rfl, rfl, rfl, rfl, rfl, rfl, rfl⟩

/-- C4 (counterexample): immediately after the channel-error transition
from a mid-call state, the status is terminal `ERROR` yet the
frame-sampling interval is still armed, the device tracks are still live
and the audio contexts are still open — the error transition does not
release the session's resources. -/
theorem error_transition_keeps_resources :
    (onerror sampleState).status = ConnectionStatus.ERROR ∧
    (onerror sampleState).frameIntervalArmed = true ∧
    (onerror sampleState).tracksLive = true ∧
    (onerror sampleState).audioContextOpen = true ∧
    (onerror sampleState).inputContextOpen = true ∧
    (onerror sampleState).sessionHeld = true :=
  ⟨rfl, rfl, rfl, rfl, rfl, rfl⟩

/-- C4 (amended): only the close-initiated transition releases the
session's resources at the transition itself, by calling `stopSession`;
the channel-error and connect-failure transitions set `ERROR` and leave
every timer, interval, track, context and handle untouched, and the
resources are then released by the idempotent `stopSession` at teardown,
so each resource is released at most once with `stopSession` as the
single release routine. -/
theorem terminal_release_only_via_stop (s : SessionState) (b : Bool) :
    onclose s = stopSession s ∧
    resourcesReleased (onclose s) ∧
    (onclose s).status = ConnectionStatus.DISCONNECTED ∧
    (onerror s).status = ConnectionStatus.ERROR ∧
    (onerror s).tracksLive = s.tracksLive ∧
    (onerror s).frameIntervalArmed = s.frameIntervalArmed ∧
    (onerror s).instructionDeadline = s.instructionDeadline ∧
    (onerror s).audioContextOpen = s.audioContextOpen ∧
    (onerror s).inputContextOpen = s.inputContextOpen ∧
    (onerror s).sessionHeld = s.sessionHeld ∧
    (onerror s).sources = s.sources ∧
    (connectFailure b s).status = ConnectionStatus.ERROR ∧
    (connectFailure b s).tracksLive = s.tracksLive ∧
    (connectFailure b s).frameIntervalArmed = s.frameIntervalArmed ∧
    (connectFailure b s).instructionDeadline = s.instructionDeadline ∧
    resourcesReleased (stopSession (onerror s)) ∧
    resourcesReleased (stopSession (connectFailure b s)) ∧
    stopSession (stopSession (onerror s)) = stopSession (onerror s) := by
  refine ⟨rfl, ?_, rfl, rfl, rfl, rfl, rfl, rfl, rfl, rfl, rfl, rfl, rfl,
    rfl, rfl, ?_, ?_, rfl⟩ <;>
    exact ⟨rfl, rfl, rfl, rfl, rfl, rfl, rfl⟩

/-- C10: the interruption branch leaves the current instruction and its
pending expiry timeout untouched, together with every non-playback
field; only the active set, the next playback offset and the speaking
flag are mutated. -/
theorem interruption_preserves_instruction (s : SessionState) :
    (onInterrupted s).1.currentInstruction = s.currentInstruction ∧
    (onInterrupted s).1.instructionDeadline = s.instructionDeadline ∧
    (onInterrupted s).1.status = s.status ∧
    (onInterrupted s).1.errorMessage = s.errorMessage ∧
    (onInterrupted s).1.tracksLive = s.tracksLive ∧
    (onInterrupted s).1.frameIntervalArmed = s.frameIntervalArmed ∧
    (onInterrupted s).1.audioContextOpen = s.audioContextOpen ∧
    (onInterrupted s).1.inputContextOpen = s.inputContextOpen ∧
    (onInterrupted s).1.sessionHeld = s.sessionHeld :=
  ⟨rfl, rfl, rfl, rfl, rfl, rfl, rfl, rfl, rfl⟩

/-- C5: `handleInstruction` keeps exactly one current instruction: a new
instruction replaces the prior one and arms a fresh expiry 8000 ms after
its own set time; the prior instruction's expiry no longer fires (its
timeout was cancelled); and an instruction that is not replaced is
cleared when its own 8000 ms expiry fires. -/
theorem instruction_replace_and_expiry (s : SessionState)
    (i₁ i₂ : InstructionState) (t₁ t₂ : ℚ) :
    (handleInstruction i₁ t₁ s).currentInstruction = some i₁ ∧
    (handleInstruction i₁ t₁ s).instructionDeadline = some (t₁ + 8000) ∧
    (handleInstruction i₂ t₂ (handleInstruction i₁ t₁ s)).currentInstruction
      = some i₂ ∧
    (t₁ ≠ t₂ →
      fireInstructionTimeout (t₁ + 8000)
          (handleInstruction i₂ t₂ (handleInstruction i₁ t₁ s)) =
        handleInstruction i₂ t₂ (handleInstruction i₁ t₁ s)) ∧
    (fireInstructionTimeout (t₁ + 8000)
        (handleInstruction i₁ t₁ s)).currentInstruction = none := by
  refine ⟨rfl, rfl, rfl, ?_, ?_⟩
  · intro hne
    have h8 : ¬ (t₂ + 8000 = t₁ + 8000) := fun h => hne (by linarith)
    simp [fireInstructionTimeout, handleInstruction, h8]
  · simp [fireInstructionTimeout, handleInstruction]

/-- C5 witness: the spec's scenario — `fix_buzz` at t = 0 ms, replaced by
`success` at t = 3000 ms; the first instruction's 8-second expiry firing
at t = 8000 ms changes nothing, and the current instruction is still
`success`. -/
theorem instruction_replace_and_expiry_witness :
    fireInstructionTimeout ((0 : ℚ) + 8000)
        (handleInstruction ⟨some "success", some "تم!"⟩ 3000
          (handleInstruction ⟨some "fix_buzz", some "تأكد من الأسلاك"⟩ 0
            sampleState)) =
      handleInstruction ⟨some "success", some "تم!"⟩ 3000
        (handleInstruction ⟨some "fix_buzz", some "تأكد من الأسلاك"⟩ 0
          sampleState) :=
  (instruction_replace_and_expiry sampleState
    ⟨some "fix_buzz", some "تأكد من الأسلاك"⟩
    ⟨some "success", some "تم!"⟩ 0 3000).2.2.2.1 (by norm_num)

/-- C7: of a message carrying several function calls only the first is
honored — the handler's result does not depend on the remaining calls —
and when that first call names `displayInstruction` with its arguments
present, it sets the current instruction and sends exactly one tool
response correlated by the call's id. -/
theorem toolCall_first_only (c : FunctionCall) (rest : List FunctionCall)
    (t : ℚ) (s : SessionState) :
    onToolCall (c :: rest) t s = onToolCall [c] t s ∧
    (c.name = some "displayInstruction" → c.argsPresent = true →
      onToolCall (c :: rest) t s =
        Except.ok (handleInstruction ⟨c.action, c.message⟩ t s,
          [⟨c.id, c.name, "Instruction displayed to user"⟩])) := by
  constructor
  · rfl
  · intro hn ha
    simp [onToolCall, hn, ha]

/-- C7 witness: a message with two `displayInstruction` calls sets the
first call's instruction and acknowledges the first call's id only. -/
theorem toolCall_first_only_witness :
    onToolCall
        [⟨some "call-1", some "displayInstruction", some "fix_buzz",
          some "تأكد من الأسلاك", true⟩,
         ⟨some "call-2", some "displayInstruction", some "success",
          some "تم!", true⟩] 0 sampleState =
      Except.ok
        (handleInstruction ⟨some "fix_buzz", some "تأكد من الأسلاك"⟩ 0
          sampleState,
         [⟨some "call-1", some "displayInstruction",
           "Instruction displayed to user"⟩]) :=
  (toolCall_first_only
    ⟨some "call-1", some "displayInstruction", some "fix_buzz",
     some "تأكد من الأسلاك", true⟩
    [⟨some "call-2", some "displayInstruction", some "success",
      some "تم!", true⟩] 0 sampleState).2 rfl rfl

/-- C6 (code evaluated at the failing input): a `displayInstruction` call
whose arguments are missing `action` is not dropped — the handler sets
the instruction with an undefined action and still sends the
acknowledgment — and rendering the overlay for that instruction throws a
`TypeError` from `action.includes`, crashing the UI layer. -/
theorem toolCall_missing_action_crashes_overlay :
    onToolCall
        [⟨some "call-1", some "displayInstruction", none,
          some "تأكد من الأسلاك", true⟩] 0 sampleState =
      Except.ok
        (handleInstruction ⟨none, some "تأكد من الأسلاك"⟩ 0 sampleState,
         [⟨some "call-1", some "displayInstruction",
           "Instruction displayed to user"⟩]) ∧
    (handleInstruction ⟨none, some "تأكد من الأسلاك"⟩ 0
        sampleState).currentInstruction =
      some ⟨none, some "تأكد من الأسلاك"⟩ ∧
    renderOverlay (some ⟨none, some "تأكد من الأسلاك"⟩) =
      Except.error "TypeError: cannot read properties of undefined" :=
  ⟨rfl, rfl, rfl⟩

/-- C8: one tick of the frame sampler starts at most one compression,
starts none (and queues nothing) when the canvas or video ref is absent,
and the interval's tick schedule is a fixed period independent of how
many compressions are still pending — the callback never awaits a
compression before the next tick. -/
theorem frameTick_bounds (canvasReady videoReady ctxReady : Bool)
    (pending pending' n : ℕ) :
    frameTickCompressions canvasReady videoReady ctxReady ≤ 1 ∧
    (canvasReady = false ∨ videoReady = false →
      frameTickCompressions canvasReady videoReady ctxReady = 0) ∧
    nextTickDelay pending = nextTickDelay pending' ∧
    frameTickTime (n + 1) = frameTickTime n + framePeriodMs := by
  refine ⟨?_, ?_, rfl, ?_⟩
  · cases canvasReady <;> cases videoReady <;> cases ctxReady <;>
      simp [frameTickCompressions]
  · rintro (h | h) <;> subst h <;> simp [frameTickCompressions]
  · simp only [frameTickTime]
    push_cast
    ring

/-- C8 witness: a tick with no video ref starts zero compressions. -/
theorem frameTick_bounds_witness :
    frameTickCompressions true false true = 0 :=
  (frameTick_bounds true false true 0 0 0).2.1 (Or.inr rfl)

/-- C9: the Audio Encoder's per-sample law clamps to `[-1, 1]` and scales
by 32767, one chunk per block tagged as 16 kHz PCM: the all-zero
4096-sample block encodes to 4096 zero samples, input 1 maps to 32767,
input -1 maps to the boundary value -32767, and every encoded sample
lies in `[-32767, 32767]` (inside the 16-bit signed range). -/
theorem pcm_encoder_clamp_scale :
    (createPcmBlob (List.replicate 4096 0)).data = List.replicate 4096 0 ∧
    (createPcmBlob (List.replicate 4096 0)).mimeType =
      "audio/pcm;rate=16000" ∧
    encodeSample 1 = 32767 ∧
    encodeSample (-1) = -32767 ∧
    ∀ q : ℚ, -32767 ≤ encodeSample q ∧ encodeSample q ≤ 32767 := by
  have hz : encodeSample 0 = 0 := by
    have hm : max (-1 : ℚ) (min 1 0) = 0 := by norm_num
    unfold encodeSample jsTrunc
    rw [hm]
    norm_num
  refine ⟨?_, rfl, ?_, ?_, ?_⟩
  · show (List.replicate 4096 (0 : ℚ)).map encodeSample =
      List.replicate 4096 0
    rw [List.map_replicate, hz]
  · have hm : max (-1 : ℚ) (min 1 1) = 1 := by norm_num
    unfold encodeSample jsTrunc
    rw [hm]
    norm_num
  · have hm : max (-1 : ℚ) (min 1 (-1)) = -1 := by norm_num
    unfold encodeSample jsTrunc
    rw [hm]
    norm_num
    exact_mod_cast Int.ceil_intCast (α := ℚ) (-32767)
  · intro q
    have hle : max (-1 : ℚ) (min 1 q) ≤ 1 :=
      max_le (by norm_num) (min_le_left _ _)
    have hge : (-1 : ℚ) ≤ max (-1) (min 1 q) := le_max_left _ _
    have hub : max (-1 : ℚ) (min 1 q) * 32767 ≤ 32767 := by nlinarith
    have hlb : (-32767 : ℚ) ≤ max (-1) (min 1 q) * 32767 := by nlinarith
    unfold encodeSample jsTrunc
    split_ifs with h0
    · constructor
      · have : (0 : ℤ) ≤ ⌊max (-1 : ℚ) (min 1 q) * 32767⌋ :=
          Int.floor_nonneg.mpr h0
        omega
      · have hf : ⌊max (-1 : ℚ) (min 1 q) * 32767⌋ ≤ ⌊(32767 : ℚ)⌋ :=
          Int.floor_le_floor hub
        have h37 : ⌊(32767 : ℚ)⌋ = 32767 := by norm_num
        omega
    · constructor
      · have hc : ⌈((-32767 : ℤ) : ℚ)⌉ ≤ ⌈max (-1 : ℚ) (min 1 q) * 32767⌉ :=
          Int.ceil_le_ceil (by exact_mod_cast hlb)
        rwa [Int.ceil_intCast] at hc
      · have hc : ⌈max (-1 : ℚ) (min 1 q) * 32767⌉ ≤ ⌈(0 : ℚ)⌉ :=
          Int.ceil_le_ceil (le_of_lt (not_le.mp h0))
        rw [Int.ceil_zero] at hc
        omega

/-- C1: for any reachable scheduler state and any sequence of remote
audio payloads `(tᵢ, dᵢ)` (output clock at scheduling time, decoded
duration) processed in decode-completion order, the scheduled start of
payload `i+1` equals the end of payload `i` whenever the clock at its
scheduling time has not yet passed that end (no gap, no overlap), and
equals the live output clock when it has (arrival after silence) — the
`max` clamp against the live clock decides between them, assuming
nothing about arrival order. -/
theorem playback_gapless (s : SessionState) (ps : List (ℚ × ℚ)) (i : ℕ)
    (h : i + 1 < ps.length) :
    ((ps.getD (i + 1) (0, 0)).1 ≤
        (scheduleStarts s ps).getD i 0 + (ps.getD i (0, 0)).2 →
      (scheduleStarts s ps).getD (i + 1) 0 =
        (scheduleStarts s ps).getD i 0 + (ps.getD i (0, 0)).2) ∧
    ((scheduleStarts s ps).getD i 0 + (ps.getD i (0, 0)).2 <
        (ps.getD (i + 1) (0, 0)).1 →
      (scheduleStarts s ps).getD (i + 1) 0 = (ps.getD (i + 1) (0, 0)).1) := by
  induction ps generalizing s i with
  | nil => simp at h
  | cons p rest ih =>
      obtain ⟨t, d⟩ := p
      cases i with
      | zero =>
          cases rest with
          | nil => simp at h
          | cons q rest2 =>
              obtain ⟨t2, d2⟩ := q
              constructor
              · intro hle
                simp only [scheduleStarts, onAudioPayload,
                  List.getD_cons_zero, List.getD_cons_succ] at hle ⊢
                exact max_eq_left hle
              · intro hlt
                simp only [scheduleStarts, onAudioPayload,
                  List.getD_cons_zero, List.getD_cons_succ] at hlt ⊢
                exact max_eq_right (le_of_lt hlt)
      | succ j =>
          have h' : j + 1 < rest.length := by
            simpa using h
          have hrec := ih (onAudioPayload t d 0 s).1 j h'
          simpa only [scheduleStarts, List.getD_cons_succ] using hrec

/-- C1 witness: the spec's scenario — payloads of durations 1 s and
0.5 s, the second scheduled while the clock reads 0.2 s, from a fresh
state: the second segment starts at the first one's end (1 s, not
1.2 s). -/
theorem playback_gapless_witness :
    (scheduleStarts sampleState [((0 : ℚ), 1), (1 / 5, 1 / 2)]).getD 1 0
      = 1 := by
  rw [(playback_gapless sampleState [((0 : ℚ), 1), (1 / 5, 1 / 2)] 0
    (by norm_num)).1
      (by norm_num [scheduleStarts, onAudioPayload, sampleState,
        List.getD_cons_zero, List.getD_cons_succ])]
  norm_num [scheduleStarts, onAudioPayload, sampleState,
    List.getD_cons_zero, List.getD_cons_succ]
